import Mathlib

/-!
# Verification of the exa-mcp-server tool registry, activation selector and handlers

Shallow embedding of the TypeScript sources of `exa-mcp-server`:

* the tool registry and the two activation-selection variants
  (`ExaServer.setupTools` in `index.ts` and `registerEnabledTools` in
  `tools/config.ts`),
* the per-tool upstream request builders (`web_search`, `research_paper_search`,
  `twitter_search`, `company_research`, `competitor_finder`, `crawling`),
* the handler response/error branches (success, soft-empty, axios error,
  generic error, and the legacy single-tool server's catch branch),
* the legacy server's bounded recent-search cache,
* the `--list-tools` startup path.

JavaScript truthiness that matters to behaviour is modelled explicitly:
`x || d` on an optional number is `d` when `x` is absent **or zero**; an
empty array is truthy, so `!response.data.results` is false for `results: []`;
`s || d` on an optional string falls back when `s` is absent or empty.
-/

namespace ExaMcp

/-- One entry of the tool registry (`ToolRegistry` interface in
`tools/config.ts`): display name, description and the enabled-by-default
flag.  The zod parameter schema and the handler function are not needed by
the selection logic and are modelled separately per tool. -/
structure ToolSpec where
  name : String
  description : String
  enabled : Bool
  deriving DecidableEq, Repr

/-- The registry `toolRegistry : Record<string, ToolRegistry>`: an
association list from tool id to spec.  `Object.entries` iterates it in
insertion order with unique keys. -/
abbrev Registry := List (String × ToolSpec)

/-- `ExaServer.setupTools` (index.ts, lines 100–123): iterate the registry;
a tool is registered when the CLI `--tools` set is non-empty and contains
the id, or the set is empty and the tool is enabled by default.  Returns
the list of registered tool ids in registry order. -/
def setupTools (specifiedTools : List String) (registry : Registry) : List String :=
  registry.filterMap (fun p =>
    if (if 0 < specifiedTools.length then p.1 ∈ specifiedTools else p.2.enabled = true)
    then some p.1 else none)

/-- `registerEnabledTools` (tools/config.ts, lines 153–177): the variant with
an exclude set.  `(enabledTools.has(id) || (enabledTools.size === 0 && tool.enabled)) && !disabledTools.has(id)`. -/
def registerEnabledTools (enabledTools disabledTools : List String)
    (registry : Registry) : List String :=
  registry.filterMap (fun p =>
    if (p.1 ∈ enabledTools ∨ (enabledTools.length = 0 ∧ p.2.enabled = true)) ∧
        p.1 ∉ disabledTools
    then some p.1 else none)

/-- Two-tool demonstration registry from the spec's activation scenarios:
tool A enabled by default, tool B disabled by default. -/
def demoRegistry : Registry :=
  [("toolA", ⟨"toolA", "demo tool A", true⟩), ("toolB", ⟨"toolB", "demo tool B", false⟩)]

/-- In a registry with unique keys, a key determines its spec. -/
theorem key_unique {l : Registry} (h : (l.map Prod.fst).Nodup) {id : String}
    {a b : ToolSpec} (ha : (id, a) ∈ l) (hb : (id, b) ∈ l) : a = b := by
  induction l with
  | nil => cases ha
  | cons hd tl ih =>
    rw [List.map_cons, List.nodup_cons] at h
    rcases List.mem_cons.mp ha with ha' | ha' <;>
      rcases List.mem_cons.mp hb with hb' | hb'
    · exact congrArg Prod.snd (ha'.trans hb'.symm)
    · exfalso
      have h1 : id ∈ tl.map Prod.fst := List.mem_map_of_mem Prod.fst hb'
      have h2 : hd.1 = id := by rw [← ha']
      rw [h2] at h
      exact h.1 h1
    · exfalso
      have h1 : id ∈ tl.map Prod.fst := List.mem_map_of_mem Prod.fst ha'
      have h2 : hd.1 = id := by rw [← hb']
      rw [h2] at h
      exact h.1 h1
    · exact ih h.2 ha' hb'

theorem mem_setupTools {includeIds : List String} {registry : Registry} {id : String} :
    id ∈ setupTools includeIds registry ↔
      ∃ spec, (id, spec) ∈ registry ∧
        (if 0 < includeIds.length then id ∈ includeIds else spec.enabled = true) := by
  unfold setupTools
  rw [List.mem_filterMap]
  constructor
  · rintro ⟨⟨k, spec⟩, hmem, hf⟩
    by_cases hc : (if 0 < includeIds.length then k ∈ includeIds else spec.enabled = true)
    · rw [if_pos hc] at hf
      have hk : k = id := Option.some.inj hf
      subst hk
      exact ⟨spec, hmem, hc⟩
    · rw [if_neg hc] at hf
      cases hf
  · rintro ⟨spec, hmem, hcond⟩
    exact ⟨(id, spec), hmem, if_pos hcond⟩

theorem mem_registerEnabledTools {enabledTools disabledTools : List String}
    {registry : Registry} {id : String} :
    id ∈ registerEnabledTools enabledTools disabledTools registry ↔
      ∃ spec, (id, spec) ∈ registry ∧
        ((id ∈ enabledTools ∨ (enabledTools.length = 0 ∧ spec.enabled = true)) ∧
          id ∉ disabledTools) := by
  unfold registerEnabledTools
  rw [List.mem_filterMap]
  constructor
  · rintro ⟨⟨k, spec⟩, hmem, hf⟩
    by_cases hc : (k ∈ enabledTools ∨ (enabledTools.length = 0 ∧ spec.enabled = true)) ∧
        k ∉ disabledTools
    · rw [if_pos hc] at hf
      have hk : k = id := Option.some.inj hf
      subst hk
      exact ⟨spec, hmem, hc⟩
    · rw [if_neg hc] at hf
      cases hf
  · rintro ⟨spec, hmem, hcond⟩
    exact ⟨(id, spec), hmem, if_pos hcond⟩

/-- **C1.** The Activation Selector enables exactly the tools prescribed by
the selection algorithm.  For every registry with unique keys and every
registered tool `(id, spec)`: with an empty include set, `id` is enabled iff
`spec.enabled`; with a non-empty include set, `id` is enabled iff it is in
the include set; and, in the `registerEnabledTools` variant, additionally
only if `id` is not in the exclude set.  In particular on the two-tool demo
registry (A default-enabled, B default-disabled), an empty include set
enables exactly `[toolA]` and include set `{toolB}` enables exactly
`[toolB]`. -/
theorem activation_selector_enables_prescribed_tools
    (registry : Registry) (includeIds excludeIds : List String)
    (hnodup : (registry.map Prod.fst).Nodup)
    (id : String) (spec : ToolSpec) (hmem : (id, spec) ∈ registry) :
    (id ∈ setupTools includeIds registry ↔
      (if includeIds = [] then spec.enabled = true else id ∈ includeIds))
    ∧ (id ∈ registerEnabledTools includeIds excludeIds registry ↔
      ((if includeIds = [] then spec.enabled = true else id ∈ includeIds) ∧
        id ∉ excludeIds))
    ∧ setupTools [] demoRegistry = ["toolA"]
    ∧ setupTools ["toolB"] demoRegistry = ["toolB"]
    ∧ registerEnabledTools [] [] demoRegistry = ["toolA"]
    ∧ registerEnabledTools ["toolB"] [] demoRegistry = ["toolB"] := by
  refine ⟨?_, ?_, by decide, by decide, by decide, by decide⟩
  · rw [mem_setupTools]
    constructor
    · rintro ⟨spec', hmem', hcond⟩
      have := key_unique hnodup hmem hmem'
      subst this
      rcases Decidable.em (includeIds = []) with he | he
      · subst he
        simpa using hcond
      · have : 0 < includeIds.length := List.length_pos.mpr he
        simp only [if_pos this] at hcond
        simpa [he] using hcond
    · intro hcond
      refine ⟨spec, hmem, ?_⟩
      rcases Decidable.em (includeIds = []) with he | he
      · subst he
        simpa using hcond
      · have hlen : 0 < includeIds.length := List.length_pos.mpr he
        simp only [if_pos hlen]
        simpa [he] using hcond
  · rw [mem_registerEnabledTools]
    constructor
    · rintro ⟨spec', hmem', hcond, hexc⟩
      have := key_unique hnodup hmem hmem'
      subst this
      refine ⟨?_, hexc⟩
      rcases Decidable.em (includeIds = []) with he | he
      · subst he
        simp only [if_pos rfl]
        rcases hcond with h | h
        · cases h
        · exact h.2
      · simp only [if_neg he]
        rcases hcond with h | h
        · exact h
        · exact absurd (List.length_eq_zero.mp h.1) he
    · rintro ⟨hcond, hexc⟩
      refine ⟨spec, hmem, ?_, hexc⟩
      rcases Decidable.em (includeIds = []) with he | he
      · subst he
        simp only [if_pos rfl] at hcond
        exact Or.inr ⟨rfl, hcond⟩
      · simp only [if_neg he] at hcond
        exact Or.inl hcond

/-- Witness for `activation_selector_enables_prescribed_tools` at the demo
registry, empty include set, tool A. -/
theorem activation_selector_enables_prescribed_tools_witness :
    (demoRegistry.map Prod.fst).Nodup ∧ ("toolA", (⟨"toolA", "demo tool A", true⟩ : ToolSpec)) ∈ demoRegistry ∧
      ("toolA" ∈ setupTools [] demoRegistry ↔
        (if ([] : List String) = [] then (⟨"toolA", "demo tool A", true⟩ : ToolSpec).enabled = true else "toolA" ∈ ([] : List String))) :=
  ⟨by decide, by decide,
    (activation_selector_enables_prescribed_tools demoRegistry [] []
      (by decide) "toolA" ⟨"toolA", "demo tool A", true⟩ (by decide)).1⟩

/-- **C2.** An include id absent from the registry is silently ignored: the
selector (both variants) is a total function that returns the empty enabled
set when the include set is `{X}` with `X` unregistered. -/
theorem unknown_include_id_ignored (registry : Registry) (X : String)
    (h : X ∉ registry.map Prod.fst) :
    setupTools [X] registry = [] ∧ registerEnabledTools [X] [] registry = [] := by
  constructor
  · rw [setupTools, List.filterMap_eq_nil_iff]
    rintro ⟨k, spec⟩ hmem
    have hk : k ≠ X := by
      intro he
      exact h (he ▸ List.mem_map_of_mem Prod.fst hmem)
    simp [hk]
  · rw [registerEnabledTools, List.filterMap_eq_nil_iff]
    rintro ⟨k, spec⟩ hmem
    have hk : k ≠ X := by
      intro he
      exact h (he ▸ List.mem_map_of_mem Prod.fst hmem)
    simp [hk]

/-- Witness for `unknown_include_id_ignored`: `"nonexistent_tool"` is not a
key of the demo registry and selecting it enables nothing. -/
theorem unknown_include_id_ignored_witness :
    "nonexistent_tool" ∉ demoRegistry.map Prod.fst ∧
      setupTools ["nonexistent_tool"] demoRegistry = [] ∧
      registerEnabledTools ["nonexistent_tool"] [] demoRegistry = [] :=
  ⟨by decide, unknown_include_id_ignored demoRegistry "nonexistent_tool" (by decide)⟩

/-! ## Upstream API configuration (`tools/config.ts`, `API_CONFIG`) -/

def BASE_URL : String := "https://api.exa.ai"

def SEARCH_ENDPOINT : String := "/search"

def CONTENTS_ENDPOINT : String := "/contents"

def DEFAULT_NUM_RESULTS : Int := 5

def DEFAULT_MAX_CHARACTERS : Nat := 3000

/-! ## Upstream search request model (`types.ts`, `ExaSearchRequest`) -/

/-- The `contents.text` field: the legacy server sends `text: true`, the
registry tools send `text: { maxCharacters: … }`. -/
inductive TextOption where
  | flag (b : Bool)
  | withMax (maxCharacters : Nat)
  deriving DecidableEq, Repr

/-- The `contents` object of an `ExaSearchRequest`. -/
structure RequestContents where
  text : TextOption
  livecrawl : Option String
  subpages : Option Int
  subpageTarget : Option (List String)
  deriving DecidableEq, Repr

/-- `ExaSearchRequest` from `src/types.ts`.  JavaScript numbers are modelled
as `Int` (the claims involve only integral counts); absent optional fields
are `none`. -/
structure ExaSearchRequest where
  query : String
  type : String
  category : Option String
  includeDomains : Option (List String)
  excludeDomains : Option (List String)
  startPublishedDate : Option String
  endPublishedDate : Option String
  numResults : Int
  contents : RequestContents
  deriving DecidableEq, Repr

/-- JavaScript `x || d` for an optional number `x`: the default applies when
the argument is absent **or zero** (0 is falsy). -/
def jsOrNum (x : Option Int) (d : Int) : Int :=
  match x with
  | none => d
  | some v => if v = 0 then d else v

/-- JavaScript truthiness test for an optional string (`if (s)`): false when
absent or empty. -/
def jsTruthyStr (s : Option String) : Bool :=
  match s with
  | none => false
  | some v => v ≠ ""

/-- The `web_search` request (`tools/webSearch.ts`, lines 33–43):
`numResults: numResults || API_CONFIG.DEFAULT_NUM_RESULTS`, fixed
`type: "auto"`, `maxCharacters: 3000`, `livecrawl: 'always'`. -/
def webSearchRequest (query : String) (numResults : Option Int) : ExaSearchRequest :=
  { query := query
    type := "auto"
    category := none
    includeDomains := none
    excludeDomains := none
    startPublishedDate := none
    endPublishedDate := none
    numResults := jsOrNum numResults DEFAULT_NUM_RESULTS
    contents :=
      { text := .withMax DEFAULT_MAX_CHARACTERS
        livecrawl := some "always"
        subpages := none
        subpageTarget := none } }

/-- The `research_paper_search` request (`tools/researchPaperSearch.ts`,
lines 33–44): fixed `category: "research paper"`, `livecrawl: 'fallback'`,
`numResults || 5`. -/
def researchPaperRequest (query : String) (numResults : Option Int) : ExaSearchRequest :=
  { query := query
    type := "auto"
    category := some "research paper"
    includeDomains := none
    excludeDomains := none
    startPublishedDate := none
    endPublishedDate := none
    numResults := jsOrNum numResults DEFAULT_NUM_RESULTS
    contents :=
      { text := .withMax DEFAULT_MAX_CHARACTERS
        livecrawl := some "fallback"
        subpages := none
        subpageTarget := none } }

/-- The `twitter_search` request (`twitterSearch.ts`, lines 35–57): fixed
`includeDomains: ["x.com", "twitter.com"]`, `numResults || 5`; the date
filters are added only when truthy. -/
def twitterSearchRequest (query : String) (numResults : Option Int)
    (startPublishedDate endPublishedDate : Option String) : ExaSearchRequest :=
  { query := query
    type := "auto"
    category := none
    includeDomains := some ["x.com", "twitter.com"]
    excludeDomains := none
    startPublishedDate := if jsTruthyStr startPublishedDate then startPublishedDate else none
    endPublishedDate := if jsTruthyStr endPublishedDate then endPublishedDate else none
    numResults := jsOrNum numResults DEFAULT_NUM_RESULTS
    contents :=
      { text := .withMax DEFAULT_MAX_CHARACTERS
        livecrawl := some "always"
        subpages := none
        subpageTarget := none } }

/-- The `company_research` request (`companyResearch.ts`, lines 45–64): fixed
`category: "company"`, `includeDomains: [query]`, **`numResults: 1`** (the
destructured `numResults` argument is never used), and
`contents.subpages: subpages || 10`; `subpageTarget` is added only when
provided and non-empty. -/
def companyResearchRequest (query : String) (subpages : Option Int)
    (subpageTarget : Option (List String)) : ExaSearchRequest :=
  { query := query
    type := "auto"
    category := some "company"
    includeDomains := some [query]
    excludeDomains := none
    startPublishedDate := none
    endPublishedDate := none
    numResults := 1
    contents :=
      { text := .withMax DEFAULT_MAX_CHARACTERS
        livecrawl := some "always"
        subpages := some (jsOrNum subpages 10)
        subpageTarget :=
          match subpageTarget with
          | some l => if 0 < l.length then some l else none
          | none => none } }

/-- The `competitor_finder` request (`tools/competitorFinder.ts`, lines
34–50): `numResults || 10`; `excludeDomains: [excludeDomain]` is added only
when the argument is truthy. -/
def competitorFinderRequest (query : String) (excludeDomain : Option String)
    (numResults : Option Int) : ExaSearchRequest :=
  { query := query
    type := "auto"
    category := none
    includeDomains := none
    excludeDomains :=
      if jsTruthyStr excludeDomain then excludeDomain.map (fun d => [d]) else none
    startPublishedDate := none
    endPublishedDate := none
    numResults := jsOrNum numResults 10
    contents :=
      { text := .withMax DEFAULT_MAX_CHARACTERS
        livecrawl := some "always"
        subpages := none
        subpageTarget := none } }

/-- **C6 counterexample.** The claim says an omitted result count gives 10
for the company-research tool; the code hard-codes `numResults: 1` in the
`company_research` request, so the constructed request for query
`"exa.ai"` with every argument omitted carries `numResults = 1 ≠ 10`. -/
theorem company_research_default_count_is_one :
    (companyResearchRequest "exa.ai" none none).numResults = 1 ∧
      (companyResearchRequest "exa.ai" none none).numResults ≠ 10 := by
  constructor <;> decide

/-- **C6 (amended).** Result-count defaults when the argument is omitted:
5 for `web_search`, `twitter_search` and `research_paper_search`; 10 for
`competitor_finder`; the `company_research` request always carries
`numResults = 1` (its count argument is ignored).  No tool takes a
max-characters argument: every search request carries a fixed
`maxCharacters = 3000` text budget. -/
theorem default_result_counts (q : String) (ex : Option String) :
    (webSearchRequest q none).numResults = 5
    ∧ (twitterSearchRequest q none none none).numResults = 5
    ∧ (researchPaperRequest q none).numResults = 5
    ∧ (competitorFinderRequest q ex none).numResults = 10
    ∧ (∀ n st d1 d2, (companyResearchRequest q n st).numResults = 1 ∧
        (twitterSearchRequest q none d1 d2).numResults = 5)
    ∧ (webSearchRequest q none).contents.text = .withMax 3000
    ∧ (twitterSearchRequest q none none none).contents.text = .withMax 3000
    ∧ (researchPaperRequest q none).contents.text = .withMax 3000
    ∧ (competitorFinderRequest q ex none).contents.text = .withMax 3000
    ∧ (companyResearchRequest q none none).contents.text = .withMax 3000 := by
  refine ⟨rfl, rfl, rfl, rfl, fun n st d1 d2 => ⟨rfl, rfl⟩, rfl, rfl, rfl, rfl, rfl⟩

/-- **C7 counterexample.** The claim says `contents.subpages` equals the
caller-provided subpages value; `subpages || 10` maps a provided `0` to 10,
so the request for query `"exa.ai"` with `subpages = 0` carries
`contents.subpages = 10`, not `0`. -/
theorem company_research_subpages_zero_becomes_ten :
    (companyResearchRequest "exa.ai" (some 0) none).contents.subpages = some 10 ∧
      (companyResearchRequest "exa.ai" (some 0) none).contents.subpages ≠ some 0 := by
  constructor <;> decide

/-- **C7 (amended).** A company-research request with query `"exa.ai"`
contains `category = "company"`, `includeDomains = ["exa.ai"]`, and
`contents.subpages` equal to the caller-provided subpages value when that
value is non-zero, or 10 when the argument is omitted (or zero). -/
theorem company_research_request_roundtrip (subpages : Option Int)
    (subpageTarget : Option (List String)) (h : subpages ≠ some 0) :
    (companyResearchRequest "exa.ai" subpages subpageTarget).category = some "company"
    ∧ (companyResearchRequest "exa.ai" subpages subpageTarget).includeDomains =
        some ["exa.ai"]
    ∧ (companyResearchRequest "exa.ai" subpages subpageTarget).contents.subpages =
        some (match subpages with | none => 10 | some v => v) := by
  refine ⟨rfl, rfl, ?_⟩
  unfold companyResearchRequest jsOrNum
  match subpages with
  | none => rfl
  | some v =>
    have hv : v ≠ 0 := fun hz => h (hz ▸ rfl)
    simp [hv]

/-- Witness for `company_research_request_roundtrip` at `subpages = 7`. -/
theorem company_research_request_roundtrip_witness :
    (some 7 : Option Int) ≠ some 0 ∧
      (companyResearchRequest "exa.ai" (some 7) none).category = some "company"
      ∧ (companyResearchRequest "exa.ai" (some 7) none).includeDomains = some ["exa.ai"]
      ∧ (companyResearchRequest "exa.ai" (some 7) none).contents.subpages = some 7 :=
  ⟨by decide, company_research_request_roundtrip (some 7) none (by decide)⟩

/-- **C10.** Under the `numResults || DEFAULT` pattern an explicit 0 is
treated exactly like an omitted argument — the request carries the tool's
default count (5 for `web_search`, 10 for `competitor_finder`) — and no
argument value can produce a request with `numResults = 0`. -/
theorem zero_num_results_treated_as_omitted (q : String) (ex : Option String) :
    webSearchRequest q (some 0) = webSearchRequest q none
    ∧ (webSearchRequest q (some 0)).numResults = 5
    ∧ competitorFinderRequest q ex (some 0) = competitorFinderRequest q ex none
    ∧ (competitorFinderRequest q ex (some 0)).numResults = 10
    ∧ (∀ n, (webSearchRequest q n).numResults ≠ 0
        ∧ (competitorFinderRequest q ex n).numResults ≠ 0) := by
  refine ⟨rfl, rfl, rfl, rfl, fun n => ⟨?_, ?_⟩⟩
  · show jsOrNum n DEFAULT_NUM_RESULTS ≠ 0
    unfold jsOrNum DEFAULT_NUM_RESULTS
    match n with
    | none => decide
    | some v =>
      by_cases hv : v = 0
      · simp [hv]
      · simp [hv]
  · show jsOrNum n 10 ≠ 0
    unfold jsOrNum
    match n with
    | none => decide
    | some v =>
      by_cases hv : v = 0
      · simp [hv]
      · simp [hv]

/-! ## Upstream responses and handler result branches -/

/-- One search result (`types.ts`, `ExaSearchResult`; the optional
`image`/`favicon`/`score` fields play no role in any claim and are
omitted). -/
structure ExaResult where
  id : String
  title : String
  url : String
  publishedDate : String
  author : String
  text : String
  deriving DecidableEq, Repr

/-- The upstream response body (`types.ts`, `ExaSearchResponse`).  The
handlers defensively test `!response.data.results`, so `results` is
modelled as optional: `none` is a missing/undefined field, `some []` is an
empty result array (a truthy value in JavaScript). -/
structure ExaResponse where
  requestId : String
  autopromptString : String
  resolvedSearchType : String
  results : Option (List ExaResult)
  deriving DecidableEq, Repr

/-- One `{type: "text", text: …}` content block of a tool result. -/
structure ContentItem where
  type : String
  text : String
  deriving DecidableEq, Repr

/-- A handler return value: content blocks plus the optional `isError`
flag (`none` models the field being absent, as in every success branch of
the source). -/
structure ToolResult where
  content : List ContentItem
  isError : Option Bool
  deriving DecidableEq, Repr

def quoted (s : String) : String := "\"" ++ s ++ "\""

/-- Model of `JSON.stringify` on one result object. -/
def serializeResult (r : ExaResult) : String :=
  "\x7b " ++ quoted "id" ++ ": " ++ quoted r.id ++ ", " ++ quoted "title" ++ ": " ++
    quoted r.title ++ ", " ++ quoted "url" ++ ": " ++ quoted r.url ++ ", " ++
    quoted "publishedDate" ++ ": " ++ quoted r.publishedDate ++ ", " ++
    quoted "author" ++ ": " ++ quoted r.author ++ ", " ++
    quoted "text" ++ ": " ++ quoted r.text ++ " \x7d"

/-- Model of `JSON.stringify(response.data, null, 2)`. -/
def serializeResponse (resp : ExaResponse) : String :=
  "\x7b " ++ quoted "requestId" ++ ": " ++ quoted resp.requestId ++ ", " ++
    quoted "autopromptString" ++ ": " ++ quoted resp.autopromptString ++ ", " ++
    quoted "resolvedSearchType" ++ ": " ++ quoted resp.resolvedSearchType ++ ", " ++
    quoted "results" ++ ": [" ++
    String.intercalate ", " ((resp.results.getD []).map serializeResult) ++ "] \x7d"

def WEB_NO_RESULTS : String := "No search results found. Please try a different query."

def CRAWL_NO_RESULTS : String :=
  "No content found at the specified URL. Please check the URL and try again."

/-- The `web_search` success branch (`tools/webSearch.ts`, lines 55–75):
`if (!response.data || !response.data.results)` return the guidance text,
otherwise return the serialized response.  An empty `results` array is
truthy, so it takes the serialize branch.  Neither branch sets `isError`. -/
def webSearchOnResponse (data : Option ExaResponse) : ToolResult :=
  match data with
  | none => { content := [{ type := "text", text := WEB_NO_RESULTS }], isError := none }
  | some d =>
    match d.results with
    | none => { content := [{ type := "text", text := WEB_NO_RESULTS }], isError := none }
    | some _ =>
      { content := [{ type := "text", text := serializeResponse d }], isError := none }

/-- The `crawling` success branch (`crawling.ts`, lines 49–57): this handler
additionally tests `response.data.results.length === 0`, so an empty result
array does yield the guidance text. -/
def crawlingOnResponse (data : Option ExaResponse) : ToolResult :=
  match data with
  | none => { content := [{ type := "text", text := CRAWL_NO_RESULTS }], isError := none }
  | some d =>
    match d.results with
    | none => { content := [{ type := "text", text := CRAWL_NO_RESULTS }], isError := none }
    | some [] =>
      { content := [{ type := "text", text := CRAWL_NO_RESULTS }], isError := none }
    | some _ =>
      { content := [{ type := "text", text := serializeResponse d }], isError := none }

/-- A concrete successful upstream response whose `results` array is empty. -/
def emptyResultsResponse : ExaResponse :=
  { requestId := "req-001", autopromptString := "", resolvedSearchType := "neural",
    results := some [] }

/-- Substring containment on strings, via list infixes on the character
data. -/
abbrev strContains (s sub : String) : Prop := sub.data <:+: s.data

theorem strContains_parts (a sub b : String) : strContains (a ++ sub ++ b) sub :=
  ⟨a.data, b.data, rfl⟩

set_option maxRecDepth 8000 in
/-- **C3 counterexample.** A `web_search` call whose upstream response
succeeds with `results: []` does **not** return the "no results" guidance:
the empty array is truthy in JavaScript, so the handler serializes the
response instead.  (`isError` is still unset.) -/
theorem web_search_empty_results_not_guidance :
    (webSearchOnResponse (some emptyResultsResponse)).content =
      [{ type := "text", text := serializeResponse emptyResultsResponse }]
    ∧ ¬ strContains (serializeResponse emptyResultsResponse) "No search results found"
    ∧ (webSearchOnResponse (some emptyResultsResponse)).isError = none := by
  refine ⟨rfl, by decide, rfl⟩

/-- **C3 (amended).** No success branch ever sets `isError`; a response with
a missing/undefined `results` field yields the guidance text in every tool,
and the `crawling` tool also yields its guidance text on an empty result
array — but the search tools serialize an empty array normally. -/
theorem soft_empty_responses (data : Option ExaResponse) :
    (webSearchOnResponse data).isError = none
    ∧ (crawlingOnResponse data).isError = none
    ∧ (data.bind ExaResponse.results = none →
        (webSearchOnResponse data).content = [{ type := "text", text := WEB_NO_RESULTS }])
    ∧ (data.bind ExaResponse.results = none ∨ data.bind ExaResponse.results = some [] →
        (crawlingOnResponse data).content =
          [{ type := "text", text := CRAWL_NO_RESULTS }]) := by
  match data with
  | none => exact ⟨rfl, rfl, fun _ => rfl, fun _ => rfl⟩
  | some d =>
    match hr : d.results with
    | none =>
      refine ⟨?_, ?_, fun _ => ?_, fun _ => ?_⟩ <;> simp [webSearchOnResponse, crawlingOnResponse, hr]
    | some [] =>
      refine ⟨?_, ?_, fun h => ?_, fun _ => ?_⟩
      · simp [webSearchOnResponse, hr]
      · simp [crawlingOnResponse, hr]
      · rw [Option.some_bind, hr] at h; cases h
      · simp [crawlingOnResponse, hr]
    | some (r :: rs) =>
      refine ⟨?_, ?_, fun h => ?_, fun h => ?_⟩
      · simp [webSearchOnResponse, hr]
      · simp [crawlingOnResponse, hr]
      · rw [Option.some_bind, hr] at h; cases h
      · rw [Option.some_bind, hr] at h
        rcases h with h | h <;> cases h

/-- Witness for `soft_empty_responses`: an absent body yields the web-search
guidance, and an empty array yields the crawling guidance. -/
theorem soft_empty_responses_witness :
    (webSearchOnResponse none).content = [{ type := "text", text := WEB_NO_RESULTS }]
    ∧ (crawlingOnResponse (some emptyResultsResponse)).content =
        [{ type := "text", text := CRAWL_NO_RESULTS }] :=
  ⟨(soft_empty_responses none).2.2.1 rfl,
    (soft_empty_responses (some emptyResultsResponse)).2.2.2 (Or.inr rfl)⟩

/-! ## Axios error handling (`tools/webSearch.ts`, lines 76–101) -/

/-- The part of an axios error's `response` the catch branch reads:
`response.status` and `response.data.message` (the latter collapsed through
the optional chain `error.response?.data?.message`). -/
structure AxiosResponseInfo where
  status : Option Nat
  dataMessage : Option String
  deriving DecidableEq, Repr

/-- An error recognized by `axios.isAxiosError`: an optional HTTP response
and the transport-level `message`. -/
structure AxiosErrorInfo where
  response : Option AxiosResponseInfo
  message : String
  deriving DecidableEq, Repr

/-- `error.response?.status || 'unknown'`: the text `"unknown"` when the
response or its status is absent (or the status is the falsy number 0). -/
def statusCodeText (e : AxiosErrorInfo) : String :=
  match e.response with
  | none => "unknown"
  | some r =>
    match r.status with
    | none => "unknown"
    | some s => if s = 0 then "unknown" else toString s

/-- `error.response?.data?.message || error.message`: the upstream message
when present and non-empty, else the raw transport message. -/
def axiosReportedMessage (e : AxiosErrorInfo) : String :=
  match e.response.bind AxiosResponseInfo.dataMessage with
  | none => e.message
  | some m => if m = "" then e.message else m

/-- The text of the `web_search` axios-error result:
`` `Search error (${statusCode}): ${errorMessage}` ``. -/
def webSearchErrorText (e : AxiosErrorInfo) : String :=
  "Search error (" ++ statusCodeText e ++ "): " ++ axiosReportedMessage e

/-- The `web_search` axios-error branch: `{content:[…], isError:true}`. -/
def webSearchOnAxiosError (e : AxiosErrorInfo) : ToolResult :=
  { content := [{ type := "text", text := webSearchErrorText e }], isError := some true }

theorem statusCodeText_of_status {e : AxiosErrorInfo} {s : Nat}
    (h : e.response.bind AxiosResponseInfo.status = some s) (h0 : s ≠ 0) :
    statusCodeText e = toString s := by
  match hr : e.response with
  | none => rw [hr, Option.none_bind] at h; cases h
  | some r =>
    rw [hr, Option.some_bind] at h
    simp [statusCodeText, hr, h, h0]

theorem statusCodeText_of_no_status {e : AxiosErrorInfo}
    (h : e.response.bind AxiosResponseInfo.status = none) :
    statusCodeText e = "unknown" := by
  match hr : e.response with
  | none => simp [statusCodeText, hr]
  | some r =>
    rw [hr, Option.some_bind] at h
    simp [statusCodeText, hr, h]

theorem webSearchErrorText_eq (e : AxiosErrorInfo) :
    webSearchErrorText e =
      "Search error (" ++ statusCodeText e ++ ("): " ++ axiosReportedMessage e) := by
  unfold webSearchErrorText
  rw [String.append_assoc]

/-- **C4.** An upstream HTTP failure of the `web_search` handler yields
`isError = true` and a message text that embeds the HTTP status code when
one is available (`"unknown"` when not) and the reported error message
(the upstream `response.data.message` when present and non-empty, else the
raw transport `error.message`). -/
theorem http_error_reported (e : AxiosErrorInfo) :
    (webSearchOnAxiosError e).isError = some true
    ∧ (webSearchOnAxiosError e).content =
        [{ type := "text", text := webSearchErrorText e }]
    ∧ (∀ s : Nat, e.response.bind AxiosResponseInfo.status = some s → s ≠ 0 →
        strContains (webSearchErrorText e) (toString s))
    ∧ (e.response.bind AxiosResponseInfo.status = none →
        strContains (webSearchErrorText e) "unknown")
    ∧ strContains (webSearchErrorText e) (axiosReportedMessage e)
    ∧ (e.response.bind AxiosResponseInfo.dataMessage = none →
        axiosReportedMessage e = e.message) := by
  refine ⟨rfl, rfl, fun s hs h0 => ?_, fun hn => ?_, ?_, fun hm => ?_⟩
  · rw [webSearchErrorText_eq, ← statusCodeText_of_status hs h0]
    exact strContains_parts _ _ _
  · rw [webSearchErrorText_eq, ← statusCodeText_of_no_status hn]
    exact strContains_parts _ _ _
  · have : webSearchErrorText e =
        ("Search error (" ++ statusCodeText e ++ "): ") ++ axiosReportedMessage e ++ "" := by
      unfold webSearchErrorText
      rw [String.append_empty]
    rw [this]
    exact strContains_parts _ _ _
  · unfold axiosReportedMessage
    rw [hm]

/-- Witness for `http_error_reported` at a concrete HTTP 429 failure: the
result is flagged `isError` and its text contains `"429"`. -/
theorem http_error_reported_witness :
    (webSearchOnAxiosError
        { response := some { status := some 429, dataMessage := some "Rate limit exceeded" },
          message := "Request failed with status code 429" }).isError = some true
    ∧ strContains
        (webSearchErrorText
          { response := some { status := some 429, dataMessage := some "Rate limit exceeded" },
            message := "Request failed with status code 429" })
        (toString (429 : Nat)) :=
  ⟨(http_error_reported
      { response := some { status := some 429, dataMessage := some "Rate limit exceeded" },
        message := "Request failed with status code 429" }).1,
    (http_error_reported
      { response := some { status := some 429, dataMessage := some "Rate limit exceeded" },
        message := "Request failed with status code 429" }).2.2.1 429 rfl (by decide)⟩

/-! ## The catch branches: registry handlers vs. the legacy server -/

/-- An exception reaching a handler's catch branch: either recognized by
`axios.isAxiosError`, or any other thrown value (carrying its string
rendering). -/
inductive HandlerError where
  | axiosError (e : AxiosErrorInfo)
  | otherError (message : String)
  deriving DecidableEq, Repr

/-- The full `web_search` catch branch (`tools/webSearch.ts`, lines 76–101):
axios errors get the status-bearing message, every other error gets
`` `Search error: ${message}` ``; both return normally with `isError:true`. -/
def webSearchCatch (err : HandlerError) : ToolResult :=
  match err with
  | .axiosError e => webSearchOnAxiosError e
  | .otherError msg =>
    { content := [{ type := "text", text := "Search error: " ++ msg }], isError := some true }

/-- The legacy single-tool server's catch branch (the
`CallToolRequestSchema` handler, lines 209–220 of the first `index.ts`
variant): axios errors are converted to an `isError` result with
`` `Exa API error: ${error.response?.data?.message ?? error.message}` ``
(nullish coalescing, so an empty upstream message is kept); any other
exception is re-thrown (`throw error`), modelled as `Except.error`. -/
def legacyErrorMessage (e : AxiosErrorInfo) : String :=
  match e.response.bind AxiosResponseInfo.dataMessage with
  | some m => m
  | none => e.message

/-- The legacy catch branch itself: axios errors become an `isError`
result, anything else escapes. -/
def legacyCatch (err : HandlerError) : Except HandlerError ToolResult :=
  match err with
  | .axiosError e =>
    .ok { content := [{ type := "text", text := "Exa API error: " ++ legacyErrorMessage e }],
          isError := some true }
  | .otherError _ => .error err

/-- **C5 counterexample.** In the legacy single-tool server an exception not
recognized as an axios error escapes the handler: the catch branch
re-throws it instead of returning a normal result. -/
theorem legacy_handler_rethrows :
    legacyCatch (.otherError "unexpected failure") =
      .error (.otherError "unexpected failure")
    ∧ ∀ r : ToolResult, legacyCatch (.otherError "unexpected failure") ≠ .ok r := by
  refine ⟨rfl, fun r h => Except.noConfusion h⟩

/-- **C5 (amended).** The registry-based handlers (e.g. `web_search`) catch
every exception and return a normal result with `isError = true` — the
generic branch reports the error's string message; the legacy single-tool
server, however, only converts axios errors and re-throws every other
exception to the transport layer. -/
theorem handler_catch_behaviour (err : HandlerError) :
    (webSearchCatch err).isError = some true
    ∧ (∀ msg, webSearchCatch (.otherError msg) =
        { content := [{ type := "text", text := "Search error: " ++ msg }],
          isError := some true })
    ∧ (∀ e, ∃ r, legacyCatch (.axiosError e) = .ok r ∧ r.isError = some true)
    ∧ (∀ msg, legacyCatch (.otherError msg) = .error (.otherError msg)) := by
  refine ⟨?_, fun msg => rfl, fun e => ⟨_, rfl, rfl⟩, fun msg => rfl⟩
  match err with
  | .axiosError e => rfl
  | .otherError msg => rfl

/-! ## The legacy server's bounded recent-search cache -/

/-- A cached search (`types.ts` of the legacy variant, `CachedSearch`). -/
structure CachedSearch where
  query : String
  response : ExaResponse
  timestamp : String
  deriving DecidableEq, Repr

def MAX_CACHED_SEARCHES : Nat := 5

/-- The cache update of the legacy `CallToolRequestSchema` handler (lines
191–201): `unshift` the new entry to the front, then `pop` the last entry
when the length exceeds `MAX_CACHED_SEARCHES`. -/
def cacheSearch (recentSearches : List CachedSearch) (entry : CachedSearch) :
    List CachedSearch :=
  if MAX_CACHED_SEARCHES < (entry :: recentSearches).length
  then (entry :: recentSearches).dropLast
  else entry :: recentSearches

/-- **C8.** The recent-searches cache is a bounded FIFO of capacity 5: from
any state of length at most 5, the new entry ends up at the front, the
length stays at most 5, insertion below capacity keeps every entry, and
insertion at capacity drops exactly the oldest (last) entry while keeping
the rest in order. -/
theorem cache_bounded_fifo (recent : List CachedSearch) (entry : CachedSearch)
    (h : recent.length ≤ MAX_CACHED_SEARCHES) :
    (cacheSearch recent entry).head? = some entry
    ∧ (cacheSearch recent entry).length ≤ MAX_CACHED_SEARCHES
    ∧ (recent.length < MAX_CACHED_SEARCHES → cacheSearch recent entry = entry :: recent)
    ∧ (recent.length = MAX_CACHED_SEARCHES →
        cacheSearch recent entry = entry :: recent.dropLast
        ∧ (cacheSearch recent entry).length = MAX_CACHED_SEARCHES) := by
  unfold cacheSearch
  by_cases hc : MAX_CACHED_SEARCHES < (entry :: recent).length
  · have hlen : recent.length = MAX_CACHED_SEARCHES := by
      rw [List.length_cons] at hc
      omega
    have hne : recent ≠ [] := by
      intro he
      rw [he] at hlen
      cases hlen
    rw [if_pos hc, List.dropLast_cons_of_ne_nil hne]
    refine ⟨rfl, ?_, fun hlt => absurd hlen (Nat.ne_of_lt hlt), fun _ => ⟨rfl, ?_⟩⟩
    · rw [List.length_cons, List.length_dropLast, hlen]
      decide
    · rw [List.length_cons, List.length_dropLast, hlen]
      decide
  · rw [if_neg hc]
    have hlt : recent.length < MAX_CACHED_SEARCHES := by
      rw [List.length_cons] at hc
      omega
    refine ⟨rfl, ?_, fun _ => rfl, fun he => absurd he (Nat.ne_of_lt hlt)⟩
    rw [List.length_cons]
    omega

/-- A concrete full cache of five entries. -/
def fullCache : List CachedSearch :=
  [⟨"q1", emptyResultsResponse, "t1"⟩, ⟨"q2", emptyResultsResponse, "t2"⟩,
   ⟨"q3", emptyResultsResponse, "t3"⟩, ⟨"q4", emptyResultsResponse, "t4"⟩,
   ⟨"q5", emptyResultsResponse, "t5"⟩]

/-- Witness for `cache_bounded_fifo` at a full five-entry cache. -/
theorem cache_bounded_fifo_witness :
    fullCache.length ≤ MAX_CACHED_SEARCHES
    ∧ (cacheSearch fullCache ⟨"q6", emptyResultsResponse, "t6"⟩).head? =
        some ⟨"q6", emptyResultsResponse, "t6"⟩
    ∧ (cacheSearch fullCache ⟨"q6", emptyResultsResponse, "t6"⟩).length ≤
        MAX_CACHED_SEARCHES :=
  ⟨by decide,
    (cache_bounded_fifo fullCache ⟨"q6", emptyResultsResponse, "t6"⟩ (by decide)).1,
    (cache_bounded_fifo fullCache ⟨"q6", emptyResultsResponse, "t6"⟩ (by decide)).2.1⟩

/-! ## The `--list-tools` startup path (index.ts, lines 56–73) -/

/-- One printed block of the tool listing: id with display name, the
description line, and the `Enabled by default: Yes/No` line. -/
structure ToolBlock where
  id : String
  name : String
  description : String
  enabledText : String
  deriving DecidableEq, Repr

def toolBlock (id : String) (tool : ToolSpec) : ToolBlock :=
  { id := id, name := tool.name, description := tool.description,
    enabledText := if tool.enabled then "Yes" else "No" }

/-- The `--list-tools` output: one block per registry entry, in registry
order. -/
def listToolsBlocks (registry : Registry) : List ToolBlock :=
  registry.map (fun p => toolBlock p.1 p.2)

/-- Outcome of the startup sequence of `index.ts`: the listing path exits
with a code, a missing (or empty, hence falsy) `EXA_API_KEY` throws, and
otherwise the server starts. -/
inductive StartupOutcome where
  | listedTools (blocks : List ToolBlock) (exitCode : Nat)
  | missingKeyError
  | serverStart (apiKey : String)
  deriving DecidableEq, Repr

/-- The startup order of `index.ts` (lines 56–73): the `--list-tools`
branch prints the registry and exits 0 **before** the `EXA_API_KEY` check
runs. -/
def startupMain (registry : Registry) (listToolsFlag : Bool) (apiKey : Option String) :
    StartupOutcome :=
  if listToolsFlag then .listedTools (listToolsBlocks registry) 0
  else
    match apiKey with
    | none => .missingKeyError
    | some k => if k = "" then .missingKeyError else .serverStart k

/-- **C9.** With `--list-tools`, startup emits exactly one block per
registered tool id — carrying that tool's id, display name, description and
enabled-by-default flag — and exits with status 0 whatever the API key is
(present, empty or absent), so no key is required. -/
theorem list_tools_path (registry : Registry) (apiKey : Option String)
    (hnodup : (registry.map Prod.fst).Nodup) :
    startupMain registry true apiKey = .listedTools (listToolsBlocks registry) 0
    ∧ (listToolsBlocks registry).length = registry.length
    ∧ ∀ id tool, (id, tool) ∈ registry →
        ({ id := id, name := tool.name, description := tool.description,
            enabledText := if tool.enabled then "Yes" else "No" } : ToolBlock) ∈
          listToolsBlocks registry
        ∧ (listToolsBlocks registry).countP (fun b => b.id == id) = 1 := by
  refine ⟨rfl, List.length_map _ _, fun id tool hmem => ⟨?_, ?_⟩⟩
  · exact List.mem_map_of_mem (fun p => toolBlock p.1 p.2) hmem
  · unfold listToolsBlocks
    rw [List.countP_map]
    have hkey : id ∈ registry.map Prod.fst := List.mem_map_of_mem Prod.fst hmem
    have hcount : (registry.map Prod.fst).count id = 1 :=
      List.count_eq_one_of_mem hnodup hkey
    have : (registry.map Prod.fst).count id =
        registry.countP (fun p => ((fun b => b.id == id) ∘ fun p => toolBlock p.1 p.2) p) := by
      rw [List.count, List.countP_map]
      rfl
    rw [← this, hcount]

/-- Witness for `list_tools_path` at the demo registry with no API key. -/
theorem list_tools_path_witness :
    (demoRegistry.map Prod.fst).Nodup
    ∧ startupMain demoRegistry true none =
        .listedTools (listToolsBlocks demoRegistry) 0 :=
  ⟨by decide, (list_tools_path demoRegistry none (by decide)).1⟩

end ExaMcp
